import Mathlib

/-!
Verification development for the forked-state CosmWasm simulator
(`dream-academy/cosmwasm-simulate`).

The definitions below are a shallow embedding of the core under
`src/core/src/` (the `fork` module, the coverage hooks in
`src/core/src/coverage/mod.rs`, and the error type in
`src/core/src/contract_vm/error.rs`).  Rust `HashMap` / `BTreeMap` values
are modelled as association lists, `u64` / `u128` quantities as `Nat`,
byte strings as `List Nat`, and the external WebAssembly engine, the
remote RPC client and the serde / protobuf codecs as explicit oracle
parameters (the specification itself treats them as black boxes).
Rust `Result` values are modelled with an explicit outcome type that also
records panics (`unimplemented!` / failed `unwrap`) since several code
paths can only terminate that way.
-/

set_option autoImplicit false

namespace CwSim

/-! ## Association lists: the model of `HashMap` and `BTreeMap` -/

/-- First value bound to key `k`, like `HashMap::get`. -/
def alFind? {κ ν : Type} [DecidableEq κ] (k : κ) : List (κ × ν) → Option ν
  | [] => none
  | (k₁, v₁) :: t => if k₁ = k then some v₁ else alFind? k t

/-- Bind `k` to `v`, replacing the existing binding if present,
like `HashMap::insert`. -/
def alInsert {κ ν : Type} [DecidableEq κ] (k : κ) (v : ν) : List (κ × ν) → List (κ × ν)
  | [] => [(k, v)]
  | (k₁, v₁) :: t => if k₁ = k then (k, v) :: t else (k₁, v₁) :: alInsert k v t

/-- Remove the binding of `k`, like `HashMap::remove`. -/
def alErase {κ ν : Type} [DecidableEq κ] (k : κ) : List (κ × ν) → List (κ × ν)
  | [] => []
  | (k₁, v₁) :: t => if k₁ = k then t else (k₁, v₁) :: alErase k t

/-! ## Error channel (`src/core/src/contract_vm/error.rs`) -/

/-- The host error enum `Error`.  Every variant carries a human readable
string. -/
inductive Error where
  | tokioError (msg : String)
  | rpcError (msg : String)
  | httpError (msg : String)
  | invalidArg (msg : String)
  | tendermintError (msg : String)
  | formatError (msg : String)
  | vmError (msg : String)
  | stdError (msg : String)
  | ioError (msg : String)
  | bankError (msg : String)
  | backendError (msg : String)
  deriving DecidableEq, Repr

/-- Outcome of a host-side Rust computation: `Ok`, `Err` (the `Result`
error channel), or a process panic (`unimplemented!`, out-of-bounds
slicing, failed `unwrap`), which the source code can reach and which we
keep explicit. -/
inductive HostOutcome (α : Type) where
  | ok (a : α)
  | err (e : Error)
  | panicked (msg : String)
  deriving DecidableEq, Repr

/-- `cosmwasm_std::ContractResult`: the contract-level error channel. -/
inductive ContractResult (α : Type) where
  | ok (a : α)
  | err (msg : String)
  deriving DecidableEq, Repr

/-- `ContractResult::is_ok`. -/
def ContractResult.isOk {α : Type} : ContractResult α → Bool
  | .ok _ => true
  | .err _ => false

/-- `ContractResult::is_err`. -/
def ContractResult.isErr {α : Type} : ContractResult α → Bool
  | .ok _ => false
  | .err _ => true

/-! ## Messages, events and responses (`cosmwasm_std` types used by the core) -/

/-- Human-readable contract address (`cosmwasm_std::Addr`). -/
abbrev Addr : Type := String

/-- A `(denom, amount)` pair; `u128` amounts are modelled as `Nat`. -/
structure Coin where
  denom : String
  amount : Nat
  deriving DecidableEq, Repr

/-- `cosmwasm_std::Event`: a type tag plus key/value attributes. -/
structure Event where
  ty : String
  attributes : List (String × String)
  deriving DecidableEq, Repr

/-- `cosmwasm_std::BankMsg`; variants other than `Send` and `Burn` hit
`unimplemented!` in `AllStates::bank_execute`. -/
inductive BankMsg where
  | send (to_address : String) (amount : List Coin)
  | burn (amount : List Coin)
  | otherVariant
  deriving DecidableEq, Repr

/-- `cosmwasm_std::ReplyOn`: the four reply policies. -/
inductive ReplyOn where
  | always
  | success
  | error
  | never
  deriving DecidableEq, Repr

/-- `cosmwasm_std::WasmMsg`; variants other than `Instantiate` and
`Execute` hit `unimplemented!` in `Model::handle_response`. -/
inductive WasmMsg where
  | instantiate (admin : Option String) (code_id : Nat) (msg : List Nat)
      (funds : List Coin)
  | execute (contract_addr : String) (msg : List Nat) (funds : List Coin)
  | otherVariant
  deriving DecidableEq, Repr

/-- `cosmwasm_std::CosmosMsg`; non-Wasm non-Bank variants hit
`unimplemented!` in `Model::handle_response`. -/
inductive CosmosMsg where
  | wasm (m : WasmMsg)
  | bank (m : BankMsg)
  | otherVariant
  deriving DecidableEq, Repr

/-- `cosmwasm_std::SubMsg`: an id, a message and a reply policy. -/
structure SubMsg where
  id : Nat
  msg : CosmosMsg
  reply_on : ReplyOn
  deriving DecidableEq, Repr

/-- `cosmwasm_std::Response`: attributes, events, optional data and the
ordered list of submessages. -/
structure Response where
  attributes : List (String × String)
  events : List Event
  data : Option (List Nat)
  messages : List SubMsg
  deriving DecidableEq, Repr

/-- `Response::new()`: the empty response. -/
def Response.new : Response :=
  { attributes := [], events := [], data := none, messages := [] }

/-- `Response::add_events`. -/
def Response.add_events (r : Response) (evs : List Event) : Response :=
  { r with events := r.events ++ evs }

/-! ## Remote client oracle (`CwClientBackend`, `src/core/src/fork/client_backend.rs`)

The transport is external; its reads against the pinned block are
deterministic (FetchCache determinism, spec invariant 6), so it is
modelled as a record of pure fallible functions. -/

/-- The subset of `CwClientBackend` consumed by the embedded operations. -/
structure Client where
  query_bank_all_balances : Addr → Except Error (List (String × Nat))
  query_wasm_contract_info : Addr → Except Error Nat
  query_wasm_contract_code : Nat → Except Error (List Nat)
  query_wasm_contract_state_all : Addr → Except Error (List (List Nat × List Nat))

/-! ## Contract state and the state store (`src/core/src/fork/states.rs`) -/

/-- `ContractStorage = BTreeMap<Vec<u8>, Vec<u8>>`. -/
abbrev ContractStorage : Type := List (List Nat × List Nat)

/-- `ContractState`: immutable code plus the per-contract storage. -/
structure ContractState where
  code : List Nat
  storage : ContractStorage
  deriving DecidableEq

/-- `AllStates`: the aggregate state store.  The `client` back-reference is
kept outside the record and passed as an oracle parameter, so that
equality of `AllStates` values is exactly equality of the mutable
fields. -/
structure AllStates where
  contract_states : List (Addr × ContractState)
  bank_states : List (Addr × List (String × Nat))
  block_number : Nat
  block_timestamp : Nat
  chain_id : String
  canonical_address_length : Nat
  bech32Hrp : String
  deriving DecidableEq

/-- `AllStates::contract_state_insert`. -/
def AllStates.contract_state_insert (s : AllStates) (contract_addr : Addr)
    (contract_state : ContractState) : AllStates :=
  { s with contract_states := alInsert contract_addr contract_state s.contract_states }

/-- `AllStates::contract_state_remove`. -/
def AllStates.contract_state_remove (s : AllStates) (contract_addr : Addr) : AllStates :=
  { s with contract_states := alErase contract_addr s.contract_states }

/-- `AllStates::contract_state_get`. -/
def AllStates.contract_state_get (s : AllStates) (contract_addr : Addr) :
    Option ContractState :=
  alFind? contract_addr s.contract_states

/-- The fixed block-time quantum `BLOCK_EPOCH = 1_000_000_000` nanoseconds. -/
def BLOCK_EPOCH : Nat := 1000000000

/-- `cosmwasm_std::Timestamp::plus_nanos`: returns a **new** timestamp,
leaving the receiver untouched. -/
def timestamp_plus_nanos (t addition : Nat) : Nat := t + addition

/-- `AllStates::update_block` (states.rs lines 103-109).  The source is

```text
self.block_number += 1;
self.block_timestamp.plus_nanos(BLOCK_EPOCH);
```

The second statement computes a new timestamp and immediately discards
it (`plus_nanos` is not a mutator), so only `block_number` changes. -/
def AllStates.update_block (s : AllStates) : AllStates :=
  let _discarded := timestamp_plus_nanos s.block_timestamp BLOCK_EPOCH
  { s with block_number := s.block_number + 1 }

/-- `AllStates::get_balance` (states.rs lines 123-140): demand-fetches the
owner's full balance map on miss and memoizes it, then reads the denom
(absent denom reads as 0).  The Rust functions mutate `self` in place, so
even an error outcome hands back the state reached so far; here that is
made explicit by pairing the state with the `Except` result. -/
def AllStates.get_balance (client : Client) (s : AllStates) (owner : Addr)
    (denom : String) : AllStates × Except Error Nat :=
  match alFind? owner s.bank_states with
  | some balances => (s, .ok ((alFind? denom balances).getD 0))
  | none =>
    match client.query_bank_all_balances owner with
    | .error e => (s, .error e)
    | .ok fetched =>
      let s₁ := { s with bank_states := alInsert owner fetched s.bank_states }
      (s₁, .ok ((alFind? denom fetched).getD 0))

/-- `AllStates::get_balances` (states.rs lines 142-162): demand-fetch on
miss, then list every (denom, amount) pair as a coin. -/
def AllStates.get_balances (client : Client) (s : AllStates) (owner : Addr) :
    AllStates × Except Error (List Coin) :=
  match alFind? owner s.bank_states with
  | some balances =>
    (s, .ok (balances.map (fun p => { denom := p.1, amount := p.2 })))
  | none =>
    match client.query_bank_all_balances owner with
    | .error e => (s, .error e)
    | .ok fetched =>
      let s₁ := { s with bank_states := alInsert owner fetched s.bank_states }
      (s₁, .ok (fetched.map (fun p => { denom := p.1, amount := p.2 })))

/-- `AllStates::set_balance` (states.rs lines 164-174). -/
def AllStates.set_balance (s : AllStates) (owner : Addr) (denom : String)
    (balance : Nat) : AllStates :=
  let owned := (alFind? owner s.bank_states).getD []
  { s with bank_states := alInsert owner (alInsert denom balance owned) s.bank_states }

/-- `AllStates::coin_spent_event`. -/
def coin_spent_event (sender : Addr) (amount : Nat) (denom : String) : Event :=
  { ty := "coin_spent",
    attributes := [("spender", sender), ("amount", toString amount ++ denom)] }

/-- `AllStates::coin_received_event`. -/
def coin_received_event (receiver : Addr) (amount : Nat) (denom : String) : Event :=
  { ty := "coin_received",
    attributes := [("receiver", receiver), ("amount", toString amount ++ denom)] }

/-- The `"insufficient balance (owner: _, balance: _, amount: _)"` message
of states.rs lines 192-195 and 213-216. -/
def insufficientMsg (owner : Addr) (balance amount : Nat) : String :=
  "insufficient balance (owner: " ++ owner ++ ", balance: " ++ toString balance ++
    ", amount: " ++ toString amount ++ ")"

/-- Loop body of `AllStates::bank_send` (states.rs lines 176-201): for each
coin in order, read both balances, and either transfer and record the two
events or stop with the insufficient-balance `Err` response. -/
def bank_send_go (client : Client) (src dst : Addr) :
    AllStates → List Coin → List Event →
    AllStates × Except Error (ContractResult Response)
  | s, [], events => (s, .ok (.ok (Response.new.add_events events)))
  | s, coin :: rest, events =>
    match s.get_balance client src coin.denom with
    | (s₁, .error e) => (s₁, .error e)
    | (s₁, .ok src_amount) =>
      match s₁.get_balance client dst coin.denom with
      | (s₂, .error e) => (s₂, .error e)
      | (s₂, .ok dst_amount) =>
        if coin.amount ≤ src_amount then
          let s₃ := s₂.set_balance src coin.denom (src_amount - coin.amount)
          let s₄ := s₃.set_balance dst coin.denom (dst_amount + coin.amount)
          bank_send_go client src dst s₄ rest
            (events ++ [coin_spent_event src coin.amount coin.denom,
                        coin_received_event dst coin.amount coin.denom])
        else
          (s₂, .ok (.err (insufficientMsg src src_amount coin.amount)))

/-- `AllStates::bank_send`. -/
def AllStates.bank_send (s : AllStates) (client : Client) (src dst : Addr)
    (amount : List Coin) : AllStates × Except Error (ContractResult Response) :=
  bank_send_go client src dst s amount []

/-- Loop body of `AllStates::bank_burn` (states.rs lines 203-222): as for
send but only decrements and emits no events. -/
def bank_burn_go (client : Client) (src : Addr) :
    AllStates → List Coin → AllStates × Except Error (ContractResult Response)
  | s, [] => (s, .ok (.ok Response.new))
  | s, coin :: rest =>
    match s.get_balance client src coin.denom with
    | (s₁, .error e) => (s₁, .error e)
    | (s₁, .ok src_amount) =>
      if coin.amount ≤ src_amount then
        bank_burn_go client src (s₁.set_balance src coin.denom (src_amount - coin.amount)) rest
      else
        (s₁, .ok (.err (insufficientMsg src src_amount coin.amount)))

/-- `AllStates::bank_burn`. -/
def AllStates.bank_burn (s : AllStates) (client : Client) (src : Addr)
    (amount : List Coin) : AllStates × Except Error (ContractResult Response) :=
  bank_burn_go client src s amount

/-- `AllStates::bank_execute` (states.rs lines 224-237); bank message
variants other than `Send` and `Burn` hit `unimplemented!`. -/
def AllStates.bank_execute (s : AllStates) (client : Client) (sender : Addr)
    (bank_msg : BankMsg) : AllStates × HostOutcome (ContractResult Response) :=
  match bank_msg with
  | .send to_address amount =>
    match s.bank_send client sender to_address amount with
    | (s₁, .error e) => (s₁, .err e)
    | (s₁, .ok r) => (s₁, .ok r)
  | .burn amount =>
    match s.bank_burn client sender amount with
    | (s₁, .error e) => (s₁, .err e)
    | (s₁, .ok r) => (s₁, .ok r)
  | .otherVariant => (s, .panicked "not implemented")

/-- `cosmwasm_std::BankQuery`; variants other than `Balance` and
`AllBalances` hit `unimplemented!` in `AllStates::bank_query`. -/
inductive BankQuery where
  | balance (address : String) (denom : String)
  | all_balances (address : String)
  | otherVariant
  deriving DecidableEq, Repr

/-- Oracles for the serde-JSON encodings produced with `to_binary`
(`BalanceResponse` and `AllBalanceResponse`). -/
structure JsonEnc where
  encodeBalanceResponse : Coin → List Nat
  encodeAllBalanceResponse : List Coin → List Nat

/-- `AllStates::bank_query` (states.rs lines 241-260). -/
def AllStates.bank_query (s : AllStates) (client : Client) (enc : JsonEnc)
    (q : BankQuery) : AllStates × HostOutcome (List Nat) :=
  match q with
  | .balance address denom =>
    match s.get_balance client address denom with
    | (s₁, .error e) => (s₁, .err e)
    | (s₁, .ok balance) =>
      (s₁, .ok (enc.encodeBalanceResponse { denom := denom, amount := balance }))
  | .all_balances address =>
    match s.get_balances client address with
    | (s₁, .error e) => (s₁, .err e)
    | (s₁, .ok balances) => (s₁, .ok (enc.encodeAllBalanceResponse balances))
  | .otherVariant => (s, .panicked "not implemented")

/-! ## Debug log (`src/core/src/fork/debug_log.rs`)

The call-tree (`CallTrace`) is bookkeeping no settled claim refers to;
it is elided from the record.  The remaining fields are modelled
exactly. -/

/-- `DebugLogEntry`: one logged response. -/
structure DebugLogEntry where
  attributes : List (String × String)
  events : List Event
  data : Option (List Nat)
  deriving DecidableEq

/-- `DebugLog` minus the call-tree. -/
structure DebugLog where
  logs : List DebugLogEntry
  err_msg : Option String
  stdout : List String
  deriving DecidableEq

/-- `DebugLog::new`. -/
def DebugLog.new : DebugLog := { logs := [], err_msg := none, stdout := [] }

/-- `DebugLog::set_err_msg`. -/
def DebugLog.set_err_msg (d : DebugLog) (e : String) : DebugLog :=
  { d with err_msg := some e }

/-- `DebugLog::append_log`. -/
def DebugLog.append_log (d : DebugLog) (r : Response) : DebugLog :=
  { d with logs := d.logs ++ [{ attributes := r.attributes, events := r.events, data := r.data }] }

/-- `DebugLog::append_stdout`. -/
def DebugLog.append_stdout (d : DebugLog) (msg : String) : DebugLog :=
  { d with stdout := d.stdout ++ [msg] }

/-! ## Coverage (`src/core/src/coverage/mod.rs`) -/

/-- `CoverageInfo`: the enabled flag and the per-address buffers. -/
structure CoverageInfo where
  enabled : Bool
  coverage_data : List (String × List (List Nat))
  deriving DecidableEq

/-- `CoverageInfo::new`. -/
def CoverageInfo.new : CoverageInfo := { enabled := false, coverage_data := [] }

/-- `CoverageInfo::add_coverage`: append one buffer under the address. -/
def CoverageInfo.add_coverage (ci : CoverageInfo) (address : String)
    (cov_data : List Nat) : CoverageInfo :=
  { ci with coverage_data :=
      (alInsert address ((alFind? address ci.coverage_data).getD [] ++ [cov_data])
        ci.coverage_data) }

/-! ## The Model (`src/core/src/fork/model.rs`) -/

/-- The orchestrator state.  The compiled-module cache is content-addressed
by `sha256(code)`; the opaque compiled modules are dropped from the model,
keeping only the key set. -/
structure Model where
  states : AllStates
  sender : String
  code_id_counters : List (Nat × Nat)
  debug_log : DebugLog
  custom_codes : List (Nat × List Nat)
  coverage_info : CoverageInfo
  wasm_cache : List (List Nat)
  deriving DecidableEq

/-- `Model::enable_code_coverage` (coverage/mod.rs lines 35-37). -/
def Model.enable_code_coverage (self : Model) : Model :=
  { self with coverage_info := { self.coverage_info with enabled := true } }

/-- `Model::disable_code_coverage` (coverage/mod.rs lines 38-40).  The
source body is `self.coverage_info.enabled = true;` — it sets the flag to
`true`, exactly like `enable_code_coverage`. -/
def Model.disable_code_coverage (self : Model) : Model :=
  { self with coverage_info := { self.coverage_info with enabled := true } }

/-- `Model::handle_coverage` (coverage/mod.rs lines 41-48).
`instance.dump_coverage()` never returns `Err` (engine warnings are
swallowed into an empty buffer), so the dumped buffer is passed in as a
value and the `Result` wrapper is dropped. -/
def Model.handle_coverage (self : Model) (instance_address : String)
    (dumped : List Nat) : Model :=
  if self.coverage_info.enabled then
    { self with coverage_info := self.coverage_info.add_coverage instance_address dumped }
  else
    self

/-- `Model::get_coverage`. -/
def Model.get_coverage (self : Model) : List (String × List (List Nat)) :=
  self.coverage_info.coverage_data

/-- `WASM_MAGIC = [0, 97, 115, 109]` (model.rs line 42). -/
def WASM_MAGIC : List Nat := [0, 97, 115, 109]

/-- `GZIP_MAGIC = [0, 0, 0, 0]` (model.rs line 43; note this is not the
real gzip magic `[31, 139]`). -/
def GZIP_MAGIC : List Nat := [0, 0, 0, 0]

/-- `maybe_unzip` (model.rs lines 46-56).  `&input[0..4]` panics when the
input is shorter than 4 bytes; the `GZIP_MAGIC` branch and the fallback
branch are both `unimplemented!()`, i.e. panics. -/
def maybe_unzip (input : List Nat) : HostOutcome (List Nat) :=
  if input.length < 4 then .panicked "slice index out of range"
  else
    let magic := input.take 4
    if magic = WASM_MAGIC then .ok input
    else if magic = GZIP_MAGIC then .panicked "not implemented"
    else .panicked "not implemented"

/-- `Model::fetch_contract_state` (model.rs lines 105-143; the same logic
is duplicated in querier.rs lines 33-71): do nothing when the state is
present, otherwise fetch the contract info, the (maybe zipped) code and
the full storage dump, and insert the materialized state. -/
def fetch_contract_state (client : Client) (s : AllStates) (contract_addr : Addr) :
    HostOutcome AllStates :=
  match s.contract_state_get contract_addr with
  | some _ => .ok s
  | none =>
    match client.query_wasm_contract_info contract_addr with
    | .error e => .err e
    | .ok code_id =>
      match client.query_wasm_contract_code code_id with
      | .error e => .err e
      | .ok raw =>
        match maybe_unzip raw with
        | .panicked msg => .panicked msg
        | .err e => .err e
        | .ok wasm_code =>
          match client.query_wasm_contract_state_all contract_addr with
          | .error e => .err e
          | .ok storage =>
            .ok (s.contract_state_insert contract_addr
              { code := wasm_code, storage := storage })

/-! ## Address generation (`Model::generate_address`, model.rs lines 145-160)

`sha2::Sha256` and the data part of `bech32::encode` are external,
deterministic functions and are passed in as oracles; the validity check
that `bech32::encode` performs on the human-readable part is concrete
(from the bech32 crate: non-empty, at most 83 characters, characters in
the ASCII range 33-126, and no mixed case). -/

/-- Validity of a bech32 human-readable part, as checked by
`bech32::encode`. -/
def validBech32Hrp (hrp : String) : Bool :=
  let cs := hrp.data
  decide (cs.length ≠ 0) && decide (cs.length ≤ 83) &&
    cs.all (fun c => 33 ≤ c.toNat && c.toNat ≤ 126) &&
    !(cs.any (fun c => 97 ≤ c.toNat && c.toNat ≤ 122) &&
      cs.any (fun c => 65 ≤ c.toNat && c.toNat ≤ 90))

/-- `canonical_to_human` (api.rs lines 66-81): fail when the canonical
bytes exceed the configured length, otherwise bech32-encode; an encoding
failure (invalid human-readable part) is reported as
"canonical address not encodable". -/
def canonical_to_human (bech32Encode : String → List Nat → String)
    (canonical : List Nat) (hrp : String) (canon_length : Nat) :
    Except String String :=
  if canon_length < canonical.length then
    .error "Invalid input: canonical address length not correct"
  else if validBech32Hrp hrp then
    .ok (bech32Encode hrp canonical)
  else
    .error "Invalid input: canonical address not encodable"

/-- `Model::generate_address` (model.rs lines 145-160): read the per-code-id
counter (`entry(code_id).or_insert(0)`), build the seed
`seeeed_<code_id>_<counter>`, increment the counter *before* hashing
and encoding, then sha256 the seed and bech32-encode the digest under the
configured human-readable part. -/
def Model.generate_address (sha256 : String → List Nat)
    (bech32Encode : String → List Nat → String) (self : Model) (code_id : Nat) :
    Model × Except Error Addr :=
  let code_id_counter := (alFind? code_id self.code_id_counters).getD 0
  let seed := "seeeed_" ++ toString code_id ++ "_" ++ toString code_id_counter
  let self₁ := { self with
    code_id_counters := alInsert code_id (code_id_counter + 1) self.code_id_counters }
  let bytes := sha256 seed
  match canonical_to_human bech32Encode bytes self₁.states.bech32Hrp
      self₁.states.canonical_address_length with
  | .ok addr => (self₁, .ok addr)
  | .error e => (self₁, .error (.formatError e))

/-! ## The atomic-call protocol (`Model::execute` lines 560-581,
`Model::instantiate` lines 435-455, `Model::revert` lines 162-167)

Both top-level entry points share one shape: deep-clone the model, run the
inner operation (`execute_inner` / `instantiate_inner`, whose behaviour
depends on the external engine and is passed in as a function), and then
either advance the block (inner returned an `Ok` response) or restore the
clone (inner returned an `Err` response).  A host error propagates with
`?` before either branch is reached. -/

/-- `Model::revert`: replace `self` by `prev_state` but keep the current
coverage state; returns the new `self` and the replaced current state. -/
def Model.revert (self prev_state : Model) : Model × Model :=
  let cur_state := self
  let self₁ := { prev_state with coverage_info := cur_state.coverage_info }
  (self₁, cur_state)

/-- The shared body of `Model::execute` and `Model::instantiate`:
snapshot, run `inner`, and on a contract error revert (handing back the
accumulated debug log), on success advance the block and hand back the
debug log, and on a host error propagate it without reverting. -/
def Model.execute_top (inner : Model → Model × HostOutcome (ContractResult Response))
    (self : Model) : Model × HostOutcome DebugLog :=
  let empty_log := DebugLog.new
  let state_copy := self
  match inner self with
  | (m, .panicked msg) => (m, .panicked msg)
  | (m, .err e) => (m, .err e)
  | (m, .ok res) =>
    if res.isErr then
      let (m₁, orig_state) := m.revert state_copy
      (m₁, .ok orig_state.debug_log)
    else
      let m₁ := { m with states := m.states.update_block }
      let m₂ := { m₁ with debug_log := empty_log }
      (m₂, .ok m₁.debug_log)

/-! ## Submessages and replies (`Model::handle_submessage_instantiate`
lines 192-278, `Model::handle_submessage_execute` lines 280-342)

The recursive inner calls (`instantiate_inner`, `execute_inner`,
`handle_response`), the sandbox construction and the `reply` entry point
all depend on the external engine; they are passed in as oracle functions
on the model state.  In addition to the source's return value, the
embedded handlers return the list of `reply` invocations actually
performed on sandbox instances (each with the origin address and the
`Reply` value passed), so that theorems can speak about when `reply` was
called. -/

/-- `cosmwasm_std::SubMsgResult`: the outcome handed to `reply`. -/
inductive SubMsgResult where
  | ok (events : List Event) (data : Option (List Nat))
  | err (msg : String)
  deriving DecidableEq, Repr

/-- `cosmwasm_std::Reply`. -/
structure Reply where
  id : Nat
  result : SubMsgResult
  deriving DecidableEq, Repr

/-- The environment handed to every entry point (`Model::env`,
model.rs lines 680-698). -/
structure Env where
  block_height : Nat
  block_time : Nat
  chain_id : String
  contract_address : Addr
  deriving DecidableEq, Repr

/-- `Model::env`. -/
def Model.env (self : Model) (contract_addr : Addr) : Env :=
  { block_height := self.states.block_number,
    block_time := self.states.block_timestamp,
    chain_id := self.states.chain_id,
    contract_address := contract_addr }

/-- UTF-8 bytes of a string. -/
def strBytes (s : String) : List Nat := s.toUTF8.toList.map (fun b => b.toNat)

/-- A protobuf length prefix (sufficient for payloads under 2^14 bytes). -/
def protoLen (n : Nat) : List Nat :=
  if n < 128 then [n] else [n % 128 + 128, n / 128]

/-- `prost` encoding of `MsgInstantiateContractResponse{address, data: []}`:
default (empty) fields are skipped, a non-empty address is field 1
(tag byte 10) length-delimited. -/
def encodeMsgInstantiateContractResponse (address : String) : List Nat :=
  if address = "" then []
  else 10 :: protoLen (strBytes address).length ++ strBytes address

/-- `prost` encoding of `MsgExecuteContractResponse{data: []}`: the single
field is at its default, so the encoding is empty. -/
def encodeMsgExecuteContractResponse : List Nat := []

/-- The decision of model.rs lines 220-225 and 290-295: whether to invoke
`reply`, given the policy and the sub-response. -/
def do_reply_decision (reply_on : ReplyOn) (response : ContractResult Response) : Bool :=
  match reply_on with
  | .always => true
  | .success => response.isOk
  | .error => response.isErr
  | .never => false

/-- Engine-dependent oracles used by the submessage handlers. -/
structure SubmsgCtx where
  execute_inner : Addr → Addr → List Nat → List Coin → Model →
    Model × HostOutcome (ContractResult Response)
  instantiate_inner : Nat → Addr → List Nat → List Coin → Model →
    Model × HostOutcome (ContractResult Response × Option Addr)
  create_instance : Addr → Model → Model × HostOutcome Unit
  instance_reply : Addr → Env → Reply → Model → Model × HostOutcome (ContractResult Response)
  dump_coverage : Addr → List Nat
  handle_response : Addr → Response → Model → Model × HostOutcome (ContractResult Response)

/-- The shared tail of both submessage handlers (model.rs lines 220-278 and
290-342): evaluate the reply policy against the sub-response; when it
selects a reply, build the `Reply` payload, create a sandbox on the origin
contract, invoke `reply` (recorded in the invocation list), collect
coverage, and either propagate the reply's contract error or recurse into
its submessages; when no reply is selected, propagate an error
sub-response or recurse into the success's submessages. -/
def submessage_reply_phase (ctx : SubmsgCtx) (origin : Addr)
    (response : ContractResult Response) (data : List Nat) (sub_msg_id : Nat)
    (reply_on : ReplyOn) (m : Model) :
    Model × List (Addr × Reply) × HostOutcome (ContractResult Response) :=
  let do_reply := do_reply_decision reply_on response
  if do_reply then
    let env := m.env origin
    let reply : Reply :=
      { id := sub_msg_id,
        result :=
          match response with
          | .ok r => .ok r.events (some data)
          | .err e => .err e }
    match ctx.create_instance origin m with
    | (m₁, .err e) => (m₁, [], .err e)
    | (m₁, .panicked s) => (m₁, [], .panicked s)
    | (m₁, .ok _) =>
      match ctx.instance_reply origin env reply m₁ with
      | (m₂, .err e) => (m₂, [(origin, reply)], .err e)
      | (m₂, .panicked s) => (m₂, [(origin, reply)], .panicked s)
      | (m₂, .ok maybe_response) =>
        let m₃ := m₂.handle_coverage origin (ctx.dump_coverage origin)
        match maybe_response with
        | .err e => (m₃, [(origin, reply)], .ok (.err e))
        | .ok response₂ =>
          let m₄ := { m₃ with debug_log := m₃.debug_log.append_log response₂ }
          match ctx.handle_response origin response₂ m₄ with
          | (m₅, r) => (m₅, [(origin, reply)], r)
  else
    match response with
    | .err e => (m, [], .ok (.err e))
    | .ok r =>
      match ctx.handle_response origin r m with
      | (m₁, r₁) => (m₁, [], r₁)

/-- The admin gate of `Model::handle_submessage_instantiate`
(model.rs lines 203-219): an admin other than the origin synthesizes the
`"cannot instantiate contract"` error without touching the engine. -/
def instantiate_gate (ctx : SubmsgCtx) (origin : Addr) (admin : Option String)
    (code_id : Nat) (msg : List Nat) (funds : List Coin) (self : Model) :
    Model × HostOutcome (ContractResult Response × Option Addr) :=
  match admin with
  | some allowed =>
    if allowed ≠ origin then
      (self, .ok (.err "cannot instantiate contract", none))
    else
      ctx.instantiate_inner code_id origin msg funds self
  | none => ctx.instantiate_inner code_id origin msg funds self

/-- `Model::handle_submessage_instantiate` (model.rs lines 192-278). -/
def handle_submessage_instantiate (ctx : SubmsgCtx) (origin : Addr)
    (admin : Option String) (code_id : Nat) (msg : List Nat) (funds : List Coin)
    (sub_msg_id : Nat) (reply_on : ReplyOn) (self : Model) :
    Model × List (Addr × Reply) × HostOutcome (ContractResult Response) :=
  match instantiate_gate ctx origin admin code_id msg funds self with
  | (m, .err e) => (m, [], .err e)
  | (m, .panicked s) => (m, [], .panicked s)
  | (m, .ok (response, new_addr)) =>
    let data := encodeMsgInstantiateContractResponse
      (match new_addr with | some a => a | none => "")
    submessage_reply_phase ctx origin response data sub_msg_id reply_on m

/-- `Model::handle_submessage_execute` (model.rs lines 280-342). -/
def handle_submessage_execute (ctx : SubmsgCtx) (origin target_addr : Addr)
    (msg : List Nat) (funds : List Coin) (sub_msg_id : Nat) (reply_on : ReplyOn)
    (self : Model) :
    Model × List (Addr × Reply) × HostOutcome (ContractResult Response) :=
  match ctx.execute_inner target_addr origin msg funds self with
  | (m, .err e) => (m, [], .err e)
  | (m, .panicked s) => (m, [], .panicked s)
  | (m, .ok response) =>
    submessage_reply_phase ctx origin response encodeMsgExecuteContractResponse
      sub_msg_id reply_on m

/-! ## Response processing (`Model::handle_response`, model.rs lines 344-405)

The two Wasm submessage handlers are mutually recursive with
`handle_response` through the engine; they are passed in as oracles, while
bank submessages are executed by the embedded `bank_execute`.  The
embedding additionally returns the ordered list of sub-responses
observed, so that theorems can relate the returned response to them. -/

/-- Oracles for the recursive submessage handlers. -/
structure RespCtx where
  client : Client
  submsg_instantiate : Addr → Option String → Nat → List Nat → List Coin →
    Nat → ReplyOn → Model → Model × HostOutcome (ContractResult Response)
  submsg_execute : Addr → Addr → List Nat → List Coin → Nat → ReplyOn →
    Model → Model × HostOutcome (ContractResult Response)

/-- One submessage dispatch: the `match &sub_msg.msg` of model.rs
lines 358-397.  Non-Wasm, non-Bank messages and Wasm variants beyond
`Instantiate`/`Execute` hit `unimplemented!`. -/
def dispatch_submessage (ctx : RespCtx) (origin : Addr) (sub_msg : SubMsg)
    (m : Model) : Model × HostOutcome (ContractResult Response) :=
  match sub_msg.msg with
  | .wasm (.instantiate admin code_id msg funds) =>
    ctx.submsg_instantiate origin admin code_id msg funds sub_msg.id sub_msg.reply_on m
  | .wasm (.execute target msg funds) =>
    ctx.submsg_execute origin target msg funds sub_msg.id sub_msg.reply_on m
  | .wasm .otherVariant => (m, .panicked "not implemented")
  | .bank bank_msg =>
    match m.states.bank_execute ctx.client origin bank_msg with
    | (s₁, .ok r) => ({ m with states := s₁ }, .ok r)
    | (s₁, .err e) => ({ m with states := s₁ }, .err e)
    | (s₁, .panicked msg) => ({ m with states := s₁ }, .panicked msg)
  | .otherVariant => (m, .panicked "not implemented")

/-- The submessage loop of model.rs lines 354-404: run each submessage in
declaration order; an `Err` sub-response is returned at once, otherwise
`last_response` is overwritten and the loop continues.  The list argument
accumulates the sub-responses observed. -/
def handle_response_go (ctx : RespCtx) (origin : Addr) :
    Model → List SubMsg → ContractResult Response → List (ContractResult Response) →
    Model × List (ContractResult Response) × HostOutcome (ContractResult Response)
  | m, [], last_response, seen => (m, seen, .ok last_response)
  | m, sub_msg :: rest, _last, seen =>
    match dispatch_submessage ctx origin sub_msg m with
    | (m₁, .err e) => (m₁, seen, .err e)
    | (m₁, .panicked s) => (m₁, seen, .panicked s)
    | (m₁, .ok response) =>
      if response.isErr then (m₁, seen ++ [response], .ok response)
      else handle_response_go ctx origin m₁ rest response (seen ++ [response])

/-- `Model::handle_response` (model.rs lines 344-405): a response with no
submessages is returned unchanged (cloned); otherwise the loop above runs
with `last_response` seeded by an empty `Ok` that is overwritten at least
once. -/
def Model.handle_response (self : Model) (ctx : RespCtx) (origin : Addr)
    (response : Response) :
    Model × List (ContractResult Response) × HostOutcome (ContractResult Response) :=
  if response.messages = [] then (self, [], .ok (.ok response))
  else handle_response_go ctx origin self response.messages (.ok Response.new) []

/-! ## The host querier (`RpcMockQuerier::query_raw`,
`src/core/src/fork/querier.rs` lines 100-238) and the per-call sandbox
query dispatch (`RpcContractInstance::query`,
`src/core/src/fork/instance.rs` lines 66-104). -/

/-- `cosmwasm_std::WasmQuery`; variants beyond the three below hit
`unimplemented!` in the querier's address extraction. -/
inductive WasmQuery where
  | contract_info (contract_addr : String)
  | raw (contract_addr : String) (key : List Nat)
  | smart (contract_addr : String) (msg : List Nat)
  | otherVariant
  deriving DecidableEq, Repr

/-- `cosmwasm_std::QueryRequest`; non-Bank non-Wasm requests hit
`unimplemented!`. -/
inductive QueryRequest where
  | bank (q : BankQuery)
  | wasm (q : WasmQuery)
  | otherVariant
  deriving DecidableEq, Repr

/-- `cosmwasm_vm::BackendError`; `query_raw` only ever constructs the
`Unknown` variant. -/
inductive BackendError where
  | unknown (msg : String)
  | user_err (msg : String)
  deriving DecidableEq, Repr

/-- `cosmwasm_std::SystemResult`. -/
inductive SystemResult (α : Type) where
  | ok (a : α)
  | err (e : String)
  deriving DecidableEq, Repr

/-- The value of a `BackendResult` call, with panics explicit. -/
inductive BackendCallResult (α : Type) where
  | ok (a : α)
  | err (e : BackendError)
  | panicked (msg : String)
  deriving DecidableEq, Repr

/-- The reserved debug-sink address (querier.rs line 20). -/
def PRINTER_ADDR : String := "supergodprinter"

/-- `BECH32_PREFIX_MAX_LEN = 10` (api.rs line 6): `RpcMockApi::new`
rejects longer human-readable parts. -/
def BECH32_PREFIX_MAX_LEN : Nat := 10

/-- Transport/codec/engine oracles consumed by `query_raw`. -/
structure QuerierCtx where
  client : Client
  enc : JsonEnc
  decodeRequest : List Nat → Except String QueryRequest
  decodePrintRequest : List Nat → Option String
  encodePrintResponse : List Nat
  encodeContractInfo : Addr → List Nat
  errStr : Error → String
  instance_from_code : List Nat → Except String Unit
  call_query : Addr → Env → List Nat → Except String (ContractResult (List Nat))

/-- `RpcContractInstance::query` (instance.rs lines 66-104):
`ContractInfo` serializes the stored contract info, `Raw` reads the key
directly (an absent key yields an empty byte string, not an error),
`Smart` dispatches the contract's `query` entry point, whose contract
error is converted into a host `VmError`. -/
def instance_query (ctx : QuerierCtx) (contract_addr : Addr)
    (storage : ContractStorage) (env : Env) (wasm_query : WasmQuery) :
    HostOutcome (List Nat) :=
  match wasm_query with
  | .contract_info _ => .ok (ctx.encodeContractInfo contract_addr)
  | .raw _ key => .ok ((alFind? key storage).getD [])
  | .smart _ msg =>
    match ctx.call_query contract_addr env msg with
    | .error e => .err (.vmError e)
    | .ok (.ok r) => .ok r
    | .ok (.err e) => .err (.vmError e)
  | .otherVariant => .panicked "not implemented"

/-- `RpcMockQuerier::query_raw` (querier.rs lines 100-238).  The querier
owns shared handles on the state store and the debug log; both are
threaded explicitly. -/
def query_raw (ctx : QuerierCtx) (s : AllStates) (dlog : DebugLog)
    (request : List Nat) :
    AllStates × DebugLog × BackendCallResult (SystemResult (ContractResult (List Nat))) :=
  match ctx.decodeRequest request with
  | .error e => (s, dlog, .err (.unknown e))
  | .ok (.bank bank_query) =>
    match s.bank_query ctx.client ctx.enc bank_query with
    | (s₁, .ok resp) => (s₁, dlog, .ok (.ok (.ok resp)))
    | (s₁, .err e) => (s₁, dlog, .err (.unknown (ctx.errStr e)))
    | (s₁, .panicked msg) => (s₁, dlog, .panicked msg)
  | .ok (.wasm .otherVariant) => (s, dlog, .panicked "not implemented")
  | .ok (.wasm wasm_query) =>
    let contract_addr : Addr :=
      match wasm_query with
      | .contract_info a => a
      | .raw a _ => a
      | .smart a _ => a
      | .otherVariant => ""
    if contract_addr = PRINTER_ADDR then
      match wasm_query with
      | .smart _ msg =>
        match ctx.decodePrintRequest msg with
        | none => (s, dlog, .panicked "unwrap on Err")
        | some text =>
          (s, dlog.append_stdout text, .ok (.ok (.ok ctx.encodePrintResponse)))
      | _ => (s, dlog, .panicked "invalid query to printer")
    else
      match fetch_contract_state ctx.client s contract_addr with
      | .err e => (s, dlog, .err (.unknown (ctx.errStr e)))
      | .panicked msg => (s, dlog, .panicked msg)
      | .ok s₁ =>
        let env : Env :=
          { block_height := s₁.block_number,
            block_time := s₁.block_timestamp,
            chain_id := s₁.chain_id,
            contract_address := contract_addr }
        match s₁.contract_state_get contract_addr with
        | none => (s₁, dlog, .panicked "unwrap on None")
        | some contract_state =>
          if BECH32_PREFIX_MAX_LEN < s₁.bech32Hrp.length then
            (s₁, dlog, .err (.unknown
              (ctx.errStr (.invalidArg ("bech32 prefix " ++ s₁.bech32Hrp ++ " is too long")))))
          else
            match ctx.instance_from_code contract_state.code with
            | .error e => (s₁, dlog, .err (.unknown e))
            | .ok _ =>
              match instance_query ctx contract_addr contract_state.storage env wasm_query with
              | .ok response => (s₁, dlog, .ok (.ok (.ok response)))
              | .err e => (s₁, dlog, .err (.unknown (ctx.errStr e)))
              | .panicked msg => (s₁, dlog, .panicked msg)
  | .ok .otherVariant => (s, dlog, .panicked "not implemented")

/-! ## Code override (`Model::create_instance` lines 169-190 and
`Model::cheat_code` lines 735-760) -/

/-- `Model::create_instance`: materialize the contract state, then build a
sandbox from its code (`Instance::from_code`, an engine oracle); the mock
backend construction validates the bech32 human-readable-part length. -/
def Model.create_instance (self : Model) (client : Client)
    (vmFromCode : List Nat → Except String Unit) (contract_addr : Addr) :
    Model × HostOutcome Unit :=
  match fetch_contract_state client self.states contract_addr with
  | .err e => (self, .err e)
  | .panicked msg => (self, .panicked msg)
  | .ok s₁ =>
    let self₁ := { self with states := s₁ }
    match s₁.contract_state_get contract_addr with
    | none => (self₁, .panicked "unwrap on None")
    | some contract_state =>
      if BECH32_PREFIX_MAX_LEN < s₁.bech32Hrp.length then
        (self₁, .err (.invalidArg ("bech32 prefix " ++ s₁.bech32Hrp ++ " is too long")))
      else
        match vmFromCode contract_state.code with
        | .error e => (self₁, .err (.vmError e))
        | .ok _ => (self₁, .ok ())

/-- `Model::cheat_code` (model.rs lines 735-760): materialize the state,
clone it, insert a copy with the new code, then try to create an instance
to validate the provided wasm; on failure re-insert the old contract
state and propagate the error. -/
def Model.cheat_code (self : Model) (client : Client)
    (vmFromCode : List Nat → Except String Unit) (contract_addr : Addr)
    (new_code : List Nat) : Model × HostOutcome Unit :=
  match fetch_contract_state client self.states contract_addr with
  | .err e => (self, .err e)
  | .panicked msg => (self, .panicked msg)
  | .ok s₁ =>
    let self₁ := { self with states := s₁ }
    match s₁.contract_state_get contract_addr with
    | none => (self₁, .panicked "unwrap on None")
    | some old_contract_state =>
      let new_contract_state := { old_contract_state with code := new_code }
      let self₂ := { self₁ with
        states := self₁.states.contract_state_insert contract_addr new_contract_state }
      match self₂.create_instance client vmFromCode contract_addr with
      | (self₃, .ok _) => (self₃, .ok ())
      | (self₃, .err e) =>
        ({ self₃ with
            states := self₃.states.contract_state_insert contract_addr old_contract_state },
          .err e)
      | (self₃, .panicked msg) => (self₃, .panicked msg)

/-! ## Concrete fixtures

Closed sample values used by witnesses and counterexamples. -/

/-- A remote client whose every read fails (the node is unreachable);
demand fetches against it surface host errors. -/
def clientFail : Client :=
  { query_bank_all_balances := fun _ => .error (.rpcError "remote unavailable"),
    query_wasm_contract_info := fun _ => .error (.rpcError "remote unavailable"),
    query_wasm_contract_code := fun _ => .error (.rpcError "remote unavailable"),
    query_wasm_contract_state_all := fun _ => .error (.rpcError "remote unavailable") }

/-- Trivial JSON encoders. -/
def encZero : JsonEnc :=
  { encodeBalanceResponse := fun _ => [], encodeAllBalanceResponse := fun _ => [] }

/-- A small state store: alice holds 10 ud1 and 0 ud2, bob is materialized
with no balances. -/
def sampleStates : AllStates :=
  { contract_states := [],
    bank_states := [("alice", [("ud1", 10), ("ud2", 0)]), ("bob", [])],
    block_number := 5,
    block_timestamp := 1000,
    chain_id := "test-1",
    canonical_address_length := 32,
    bech32Hrp := "wasm" }

/-- A model over `sampleStates` with empty logs, counters and caches. -/
def sampleModel : Model :=
  { states := sampleStates,
    sender := "wasm1zcnn5gh37jxg9c6dp4jcjc7995ae0s5f5hj0lj",
    code_id_counters := [],
    debug_log := DebugLog.new,
    custom_codes := [],
    coverage_info := CoverageInfo.new,
    wasm_cache := [] }

/-- `sampleModel` reconfigured with an empty bech32 human-readable part
(nothing validates the prefix at model construction). -/
def emptyHrpModel : Model :=
  { sampleModel with states := { sampleStates with bech32Hrp := "" } }

/-- A stand-in sha256 oracle. -/
def sha0 : String → List Nat := fun _ => List.replicate 32 0

/-- A stand-in bech32 data encoder. -/
def bech32enc0 : String → List Nat → String := fun hrp _ => hrp ++ "1qqqq"

/-- An inner operation that moves money and then fails with a host error
(e.g. a demand fetch hit an unreachable node after a bank transfer). -/
def innerHostErr : Model → Model × HostOutcome (ContractResult Response) :=
  fun m =>
    ({ m with states := m.states.set_balance "alice" "ud1" 42 },
      .err (.rpcError "connection reset"))

/-- An inner operation that mutates state, accumulates coverage and a debug
log, and returns a contract error. -/
def innerContractErr : Model → Model × HostOutcome (ContractResult Response) :=
  fun m =>
    ({ m with
        states := m.states.set_balance "alice" "ud1" 3,
        coverage_info := { enabled := true, coverage_data := [("pair", [[1, 2]])] },
        debug_log := m.debug_log.set_err_msg "contract failed" },
      .ok (.err "contract failed"))

/-- An inner operation that succeeds with an empty response. -/
def innerSucceed : Model → Model × HostOutcome (ContractResult Response) :=
  fun m => (m, .ok (.ok Response.new))

/-- Submessage oracles in which every engine call succeeds trivially. -/
def subCtx0 : SubmsgCtx :=
  { execute_inner := fun _ _ _ _ m => (m, .ok (.ok Response.new)),
    instantiate_inner := fun _ _ _ _ m => (m, .ok (.ok Response.new, some "cnew")),
    create_instance := fun _ m => (m, .ok ()),
    instance_reply := fun _ _ _ m => (m, .ok (.ok Response.new)),
    dump_coverage := fun _ => [],
    handle_response := fun _ r m => (m, .ok (.ok r)) }

/-- Response-processing oracles in which both Wasm handlers succeed with an
empty response. -/
def respCtx0 : RespCtx :=
  { client := clientFail,
    submsg_instantiate := fun _ _ _ _ _ _ _ m => (m, .ok (.ok Response.new)),
    submsg_execute := fun _ _ _ _ _ _ m => (m, .ok (.ok Response.new)) }

/-- A response with an attribute and no submessages. -/
def rAttr : Response :=
  { attributes := [("action", "transfer")], events := [], data := none, messages := [] }

/-- Querier oracles whose decoded request is a bank balance query for an
unmaterialized owner, over the failing client. -/
def qctx0 : QuerierCtx :=
  { client := clientFail,
    enc := encZero,
    decodeRequest := fun _ => .ok (.bank (.balance "carol" "ud1")),
    decodePrintRequest := fun _ => none,
    encodePrintResponse := [],
    encodeContractInfo := fun _ => [],
    errStr := fun _ => "host error",
    instance_from_code := fun _ => .ok (),
    call_query := fun _ _ _ => .ok (.ok []) }

/-- Querier oracles whose decoded request is a smart print query to the
reserved debug sink. -/
def qctxPrint : QuerierCtx :=
  { client := clientFail,
    enc := encZero,
    decodeRequest := fun _ => .ok (.wasm (.smart PRINTER_ADDR [2])),
    decodePrintRequest := fun _ => some "hello",
    encodePrintResponse := [8],
    encodeContractInfo := fun _ => [],
    errStr := fun _ => "host error",
    instance_from_code := fun _ => .ok (),
    call_query := fun _ _ _ => .ok (.ok []) }

/-- `sampleStates` with one materialized contract at address `pair`. -/
def sampleStatesC : AllStates :=
  { sampleStates with
    contract_states := [("pair", { code := [0, 97, 115, 109], storage := [([1], [2])] })] }

/-- A model holding the materialized `pair` contract. -/
def sampleModelC : Model := { sampleModel with states := sampleStatesC }

/-- An engine oracle that rejects every bytecode. -/
def vmBad : List Nat → Except String Unit := fun _ => .error "compile failed"

/-! ## Association-list lemmas -/

theorem alFind?_alInsert_self {κ ν : Type} [DecidableEq κ] (k : κ) (v : ν)
    (l : List (κ × ν)) : alFind? k (alInsert k v l) = some v := by
  induction l with
  | nil => simp [alInsert, alFind?]
  | cons h t ih =>
    obtain ⟨k₁, v₁⟩ := h
    by_cases hk : k₁ = k <;> simp [alInsert, alFind?, hk, ih]

theorem alFind?_alInsert_ne {κ ν : Type} [DecidableEq κ] (k k₂ : κ) (v : ν)
    (l : List (κ × ν)) (h : k₂ ≠ k) :
    alFind? k₂ (alInsert k v l) = alFind? k₂ l := by
  induction l with
  | nil => simp [alInsert, alFind?, Ne.symm h]
  | cons hd t ih =>
    obtain ⟨k₁, v₁⟩ := hd
    by_cases hk : k₁ = k
    · subst hk
      simp [alInsert, alFind?, Ne.symm h]
    · simp only [alInsert, alFind?, if_neg hk]
      by_cases hk₂ : k₁ = k₂ <;> simp [alFind?, hk₂, ih]

theorem alInsert_self_of_find {κ ν : Type} [DecidableEq κ] (k : κ) (v : ν)
    (l : List (κ × ν)) (h : alFind? k l = some v) : alInsert k v l = l := by
  induction l with
  | nil => simp [alFind?] at h
  | cons hd t ih =>
    obtain ⟨k₁, v₁⟩ := hd
    by_cases hk : k₁ = k
    · subst hk
      simp [alFind?] at h
      simp [alInsert, h]
    · simp [alFind?, hk] at h
      simp [alInsert, hk, ih h]

theorem alInsert_alInsert {κ ν : Type} [DecidableEq κ] (k : κ) (v₁ v₂ : ν)
    (l : List (κ × ν)) : alInsert k v₂ (alInsert k v₁ l) = alInsert k v₂ l := by
  induction l with
  | nil => simp [alInsert]
  | cons hd t ih =>
    obtain ⟨k₁, w⟩ := hd
    by_cases hk : k₁ = k <;> simp [alInsert, hk, ih]

/-! ## Claim theorems -/

/-- C2: a successful top-level transaction increments `block_number` by 1
but leaves `block_timestamp` untouched — `update_block` discards the value
`plus_nanos` returns, so block time is *not* advanced by the 10⁹ ns
quantum the claim states. -/
theorem c2_block_time_not_advanced :
    (∀ s : AllStates, (AllStates.update_block s).block_number = s.block_number + 1 ∧
        (AllStates.update_block s).block_timestamp = s.block_timestamp) ∧
    (Model.execute_top innerSucceed sampleModel).1.states.block_number
        = sampleModel.states.block_number + 1 ∧
    (Model.execute_top innerSucceed sampleModel).1.states.block_timestamp
        = sampleModel.states.block_timestamp ∧
    (Model.execute_top innerSucceed sampleModel).1.states.block_timestamp
        ≠ sampleModel.states.block_timestamp + BLOCK_EPOCH := by
  exact ⟨fun s => ⟨rfl, rfl⟩, rfl, rfl, by decide⟩

/-- C8: `maybe_unzip` panics (`unimplemented!`) on the source's gzip magic,
on the real gzip magic `[31, 139]`, and on input shorter than four bytes;
only a WebAssembly header passes through.  No branch decompresses and no
branch returns a `Format` error. -/
theorem c8_maybe_unzip_panics :
    maybe_unzip (GZIP_MAGIC ++ [1, 2, 3]) = .panicked "not implemented" ∧
    maybe_unzip [31, 139, 8, 0] = .panicked "not implemented" ∧
    maybe_unzip (WASM_MAGIC ++ [1]) = .ok (WASM_MAGIC ++ [1]) ∧
    maybe_unzip [] = .panicked "slice index out of range" := by
  exact ⟨rfl, rfl, rfl, rfl⟩

/-- C9: `disable_code_coverage` sets the enabled flag to `true` (the same
body as `enable_code_coverage`), so a sandbox call performed after
enable-then-disable still appends its coverage buffer. -/
theorem c9_disable_coverage_still_collects :
    (Model.disable_code_coverage (Model.enable_code_coverage sampleModel)).coverage_info.enabled
        = true ∧
    (Model.handle_coverage
        (Model.disable_code_coverage (Model.enable_code_coverage sampleModel))
        "pair" [7]).coverage_info.coverage_data = [("pair", [[7]])] ∧
    sampleModel.coverage_info.coverage_data = [] := by
  exact ⟨rfl, rfl, rfl⟩

/-- C1 counterexample: an inner operation that transfers money and then
fails with a host error propagates through `?` before the revert branch is
reached, so the caller-visible state store differs from its pre-call
value. -/
theorem c1_host_error_not_rolled_back_cex :
    (Model.execute_top innerHostErr sampleModel).2 = .err (.rpcError "connection reset") ∧
    (Model.execute_top innerHostErr sampleModel).1.states ≠ sampleModel.states := by
  exact ⟨rfl, by decide⟩

/-- C3 counterexample: with an empty configured bech32 human-readable part
(accepted at model construction), the derivation call fails in
`canonical_to_human`, yet the per-code-id counter has already been
consumed: the counter is incremented at derivation time, not only after a
successful derivation call. -/
theorem c3_failed_derivation_increments_counter_cex :
    (Model.generate_address sha0 bech32enc0 emptyHrpModel 7).2
        = .error (.formatError "Invalid input: canonical address not encodable") ∧
    (Model.generate_address sha0 bech32enc0 emptyHrpModel 7).1.code_id_counters = [(7, 1)] ∧
    emptyHrpModel.code_id_counters = [] := by
  exact ⟨rfl, rfl, rfl⟩

/-- C5 counterexample: sending `[5 ud1, 7 ud2]` from alice (10 ud1, 0 ud2)
returns the insufficient-balance `Err` response for the second coin, but
the first coin's transfer has already been applied when the `Err` response
is returned — alice's ud1 balance has dropped from 10 to 5. -/
theorem c5_partial_mutation_on_err_cex :
    (AllStates.bank_send sampleStates clientFail "alice" "bob"
        [{ denom := "ud1", amount := 5 }, { denom := "ud2", amount := 7 }]).2
      = .ok (.err "insufficient balance (owner: alice, balance: 0, amount: 7)") ∧
    alFind? "ud1" ((alFind? "alice"
        (AllStates.bank_send sampleStates clientFail "alice" "bob"
          [{ denom := "ud1", amount := 5 }, { denom := "ud2", amount := 7 }]).1.bank_states).getD [])
      = some 5 ∧
    alFind? "ud1" ((alFind? "alice" sampleStates.bank_states).getD []) = some 10 := by
  exact ⟨rfl, rfl, rfl⟩

/-- C6 counterexample: a response with no submessages but a non-empty
attribute list is returned unchanged by `handle_response` — the overall
call yields the full original response, not a lone empty `Ok` response. -/
theorem c6_empty_submessages_returns_full_response_cex :
    (Model.handle_response sampleModel respCtx0 "orig" rAttr).2.2 = .ok (.ok rAttr) ∧
    rAttr ≠ Response.new := by
  exact ⟨rfl, by decide⟩

/-- C7 counterexample: a bank-query failure inside `query_raw` (a demand
fetch against an unreachable node) surfaces as a `BackendError::Unknown`
backend error, not through the `SystemResult`/`ContractResult`
envelope. -/
theorem c7_bank_error_is_backend_error_cex :
    query_raw qctx0 sampleStates DebugLog.new [1]
      = (sampleStates, DebugLog.new, .err (.unknown "host error")) := by
  rfl

/-- C1 (amended): when the inner operation completes with a *contract*
error, the top-level call restores the snapshot: the final model is the
pre-call model with only the coverage state replaced by the post-inner
coverage state (coverage accumulates, everything else — contract states,
ledger, code table, counters, block fields, sender, custom codes, module
cache, debug log — is exactly the pre-call value), and the mutated debug
log is handed back to the caller.  Host errors propagate without this
rollback (see the counterexample). -/
theorem c1_contract_error_atomicity :
    ∀ (inner : Model → Model × HostOutcome (ContractResult Response)) (self m₁ : Model)
      (res : ContractResult Response),
      inner self = (m₁, .ok res) → res.isErr = true →
      Model.execute_top inner self
        = ({ self with coverage_info := m₁.coverage_info }, .ok m₁.debug_log) := by
  intro inner self m₁ res h hres
  cases res with
  | ok r => simp [ContractResult.isErr] at hres
  | err msg => simp [Model.execute_top, h, ContractResult.isErr, Model.revert]

theorem c1_contract_error_atomicity_witness :
    Model.execute_top innerContractErr sampleModel
      = ({ sampleModel with
            coverage_info := { enabled := true, coverage_data := [("pair", [[1, 2]])] } },
          .ok (DebugLog.new.set_err_msg "contract failed")) := by
  exact c1_contract_error_atomicity innerContractErr sampleModel
    ({ sampleModel with
        states := sampleModel.states.set_balance "alice" "ud1" 3,
        coverage_info := { enabled := true, coverage_data := [("pair", [[1, 2]])] },
        debug_log := sampleModel.debug_log.set_err_msg "contract failed" })
    (.err "contract failed") rfl rfl

/-- C3 (amended): the per-code-id counter starts at zero and is
incremented on *every* derivation call — at derivation time, before
hashing and encoding — whether or not the call succeeds; a successful
derivation yields exactly the bech32 encoding under the configured
human-readable part of the sha256 digest of `seeeed_<code_id>_<counter>`,
and it succeeds precisely when the digest fits the configured canonical
length and the human-readable part is bech32-encodable; the derived
address depends only on the counters, the human-readable part and the
canonical length, so two simulators issuing the same sequence of
derivation calls derive identical addresses. -/
theorem c3_address_derivation_amended :
    ∀ (sha : String → List Nat) (enc : String → List Nat → String)
      (self : Model) (code_id : Nat),
      (Model.generate_address sha enc self code_id).1.code_id_counters
          = alInsert code_id ((alFind? code_id self.code_id_counters).getD 0 + 1)
              self.code_id_counters ∧
      ((Model.generate_address sha enc self code_id).2
            = .ok (enc self.states.bech32Hrp
                (sha ("seeeed_" ++ toString code_id ++ "_"
                  ++ toString ((alFind? code_id self.code_id_counters).getD 0))))
          ↔ ((sha ("seeeed_" ++ toString code_id ++ "_"
                  ++ toString ((alFind? code_id self.code_id_counters).getD 0))).length
                ≤ self.states.canonical_address_length
              ∧ validBech32Hrp self.states.bech32Hrp = true)) ∧
      (∀ other : Model,
          other.code_id_counters = self.code_id_counters →
          other.states.bech32Hrp = self.states.bech32Hrp →
          other.states.canonical_address_length = self.states.canonical_address_length →
          (Model.generate_address sha enc other code_id).2
            = (Model.generate_address sha enc self code_id).2) := by
  intro sha enc self code_id
  refine ⟨?_, ⟨?_, ?_⟩, ?_⟩
  · unfold Model.generate_address
    dsimp only
    split <;> rfl
  · intro hok
    unfold Model.generate_address at hok
    dsimp only at hok
    split at hok
    next addr heq =>
      unfold canonical_to_human at heq
      split at heq
      next => exact absurd heq (by simp)
      next hlt =>
        split at heq
        next hvalid => exact ⟨Nat.not_lt.mp hlt, hvalid⟩
        next => exact absurd heq (by simp)
    next e heq => simp at hok
  · rintro ⟨hlen, hvalid⟩
    unfold Model.generate_address canonical_to_human
    simp [Nat.not_lt.mpr hlen, hvalid]
  · intro other h₁ h₂ h₃
    unfold Model.generate_address
    dsimp only
    simp only [h₁, h₂, h₃]
    rcases hct : canonical_to_human enc
        (sha ("seeeed_" ++ toString code_id ++ "_"
          ++ toString ((alFind? code_id self.code_id_counters).getD 0)))
        self.states.bech32Hrp self.states.canonical_address_length with e | addr <;> rfl

theorem c3_address_derivation_amended_witness :
    (Model.generate_address sha0 bech32enc0 sampleModel 7).2
      = .ok (bech32enc0 "wasm" (sha0 "seeeed_7_0")) := by
  exact ((c3_address_derivation_amended sha0 bech32enc0 sampleModel 7).2.1).mpr
    ⟨by decide, by decide⟩

/-- Shape of every `Err` response produced by the `bank_send` loop: it is
the insufficient-balance message for the source, for some balance strictly
below the requested amount. -/
theorem bank_send_go_err_shape :
    ∀ (client : Client) (src dst : Addr) (coins : List Coin) (s : AllStates)
      (events : List Event) (s₂ : AllStates) (m : String),
      bank_send_go client src dst s coins events = (s₂, .ok (.err m)) →
      ∃ bal amt, bal < amt ∧ m = insufficientMsg src bal amt := by
  intro client src dst coins
  induction coins with
  | nil =>
    intro s events s₂ m h
    simp [bank_send_go] at h
  | cons c rest ih =>
    intro s events s₂ m h
    unfold bank_send_go at h
    split at h
    next s₁ e heq => simp at h
    next s₁ src_amount heq =>
      split at h
      next sd e heq₂ => simp at h
      next sd dst_amount heq₂ =>
        split at h
        next hle => exact ih _ _ _ _ h
        next hle =>
          simp [Prod.ext_iff] at h
          exact ⟨src_amount, c.amount, Nat.not_le.mp hle, h.2.symm⟩

/-- As `bank_send_go_err_shape`, for the `bank_burn` loop. -/
theorem bank_burn_go_err_shape :
    ∀ (client : Client) (src : Addr) (coins : List Coin) (s : AllStates)
      (s₂ : AllStates) (m : String),
      bank_burn_go client src s coins = (s₂, .ok (.err m)) →
      ∃ bal amt, bal < amt ∧ m = insufficientMsg src bal amt := by
  intro client src coins
  induction coins with
  | nil =>
    intro s s₂ m h
    simp [bank_burn_go] at h
  | cons c rest ih =>
    intro s s₂ m h
    unfold bank_burn_go at h
    split at h
    next s₁ e heq => simp at h
    next s₁ src_amount heq =>
      split at h
      next hle => exact ih _ _ _ h
      next hle =>
        simp [Prod.ext_iff] at h
        exact ⟨src_amount, c.amount, Nat.not_le.mp hle, h.2.symm⟩

/-- C5 (amended): `Send` and `Burn` check each coin in declaration order
against the source balance at the time it is processed; any `Err` outcome
is a contract-level `Err` response (not a host error) carrying
`insufficient balance (owner: _, balance: _, amount: _)` for a balance
strictly below the requested amount; when the *first* coin is
insufficient, the returned state is exactly the state after the two
demand-fetch balance reads — no balance has been mutated — and such reads
never modify an already-materialized balance entry.  (Transfers of coins
*earlier* in the list are already applied when the `Err` response is
returned — see the counterexample — so the original "fails before any
mutation" only holds coin-wise.) -/
theorem c5_bank_insufficient_amended :
    (∀ (client : Client) (s : AllStates) (src dst : Addr) (coins : List Coin)
        (s₂ : AllStates) (m : String),
        AllStates.bank_send s client src dst coins = (s₂, .ok (.err m)) →
        ∃ bal amt, bal < amt ∧ m = insufficientMsg src bal amt) ∧
    (∀ (client : Client) (s : AllStates) (src : Addr) (coins : List Coin)
        (s₂ : AllStates) (m : String),
        AllStates.bank_burn s client src coins = (s₂, .ok (.err m)) →
        ∃ bal amt, bal < amt ∧ m = insufficientMsg src bal amt) ∧
    (∀ (client : Client) (s : AllStates) (src dst : Addr) (c : Coin) (rest : List Coin)
        (s₁ : AllStates) (balS : Nat) (s₂ : AllStates) (balD : Nat),
        s.get_balance client src c.denom = (s₁, .ok balS) →
        s₁.get_balance client dst c.denom = (s₂, .ok balD) →
        balS < c.amount →
        AllStates.bank_send s client src dst (c :: rest)
          = (s₂, .ok (.err (insufficientMsg src balS c.amount)))) ∧
    (∀ (client : Client) (s : AllStates) (o : Addr) (d : String) (owner : Addr)
        (bal : List (String × Nat)),
        alFind? owner s.bank_states = some bal →
        alFind? owner (s.get_balance client o d).1.bank_states = some bal) := by
  refine ⟨?_, ?_, ?_, ?_⟩
  · intro client s src dst coins s₂ m h
    exact bank_send_go_err_shape client src dst coins s [] s₂ m h
  · intro client s src coins s₂ m h
    exact bank_burn_go_err_shape client src coins s s₂ m h
  · intro client s src dst c rest s₁ balS s₂ balD h₁ h₂ h₃
    unfold AllStates.bank_send bank_send_go
    simp only [h₁]
    simp only [h₂]
    rw [if_neg (Nat.not_le.mpr h₃)]
  · intro client s o d owner bal hbal
    unfold AllStates.get_balance
    rcases ho : alFind? o s.bank_states with _ | v
    · rcases hc : client.query_bank_all_balances o with e | fetched
      · exact hbal
      · have hne : owner ≠ o := by
          intro he
          rw [he, ho] at hbal
          exact Option.noConfusion hbal
        simp only []
        rw [alFind?_alInsert_ne o owner fetched s.bank_states hne]
        exact hbal
    · exact hbal

theorem c5_bank_insufficient_amended_witness :
    AllStates.bank_send sampleStates clientFail "alice" "bob"
        [{ denom := "ud1", amount := 20 }]
      = (sampleStates, .ok (.err (insufficientMsg "alice" 10 20))) := by
  exact c5_bank_insufficient_amended.2.2.1 clientFail sampleStates "alice" "bob"
    { denom := "ud1", amount := 20 } [] sampleStates 10 sampleStates 0 rfl rfl (by decide)

/-- C10: when the target contract is materialized and `cheat_code` fails
with a host error (in particular because no sandbox instance can be
created from the new bytecode), the previous `ContractState` — original
code and storage — is re-inserted, and the whole model is exactly its
pre-call value. -/
theorem c10_cheat_code_failure_restores_state :
    ∀ (self : Model) (client : Client) (vmFromCode : List Nat → Except String Unit)
      (contract_addr : Addr) (new_code : List Nat) (cs : ContractState)
      (final : Model) (e : Error),
      self.states.contract_state_get contract_addr = some cs →
      Model.cheat_code self client vmFromCode contract_addr new_code = (final, .err e) →
      final = self := by
  intro self client vm addr new_code cs final e hget h
  obtain ⟨st, sen, cnt, dl, cc, cov, wc⟩ := self
  obtain ⟨cst, bst, bn, bt, cid, cal, hrp⟩ := st
  have hfind : alFind? addr cst = some cs := hget
  unfold Model.cheat_code Model.create_instance fetch_contract_state
    AllStates.contract_state_get AllStates.contract_state_insert at h
  dsimp only at h
  simp only [hfind, alFind?_alInsert_self] at h
  split at h
  next self₃ u hcr => simp at h
  next self₃ e₂ hcr =>
    try simp only [hfind, alFind?_alInsert_self] at hcr
    split at hcr
    next hlong =>
      simp only [Prod.mk.injEq] at hcr
      obtain ⟨hself₃, -⟩ := hcr
      simp only [Prod.mk.injEq] at h
      obtain ⟨hfin, -⟩ := h
      rw [← hfin, ← hself₃]
      simp [alInsert_alInsert, alInsert_self_of_find addr cs cst hfind]
    next hshort =>
      rcases hvm : vm new_code with e₁ | u
      · rw [hvm] at hcr
        simp only [Prod.mk.injEq] at hcr
        obtain ⟨hself₃, -⟩ := hcr
        simp only [Prod.mk.injEq] at h
        obtain ⟨hfin, -⟩ := h
        rw [← hfin, ← hself₃]
        simp [alInsert_alInsert, alInsert_self_of_find addr cs cst hfind]
      · rw [hvm] at hcr
        simp at hcr
  next self₃ msg hcr => simp at h

theorem c10_cheat_code_failure_restores_state_witness :
    (Model.cheat_code sampleModelC clientFail vmBad "pair" [9, 9]).1 = sampleModelC := by
  exact c10_cheat_code_failure_restores_state sampleModelC clientFail vmBad "pair" [9, 9]
    { code := [0, 97, 115, 109], storage := [([1], [2])] }
    (Model.cheat_code sampleModelC clientFail vmBad "pair" [9, 9]).1
    (.vmError "compile failed") rfl rfl

/-- In a run of the shared reply phase that completes without a host
error, `reply` was invoked on a sandbox exactly when the reply policy
selected it against the sub-response. -/
theorem submessage_reply_phase_invocations :
    ∀ (ctx : SubmsgCtx) (origin : Addr) (response : ContractResult Response)
      (data : List Nat) (sub_msg_id : Nat) (reply_on : ReplyOn) (m final : Model)
      (invs : List (Addr × Reply)) (out : ContractResult Response),
      submessage_reply_phase ctx origin response data sub_msg_id reply_on m
        = (final, invs, .ok out) →
      ((invs ≠ []) ↔ do_reply_decision reply_on response = true) := by
  intro ctx origin response data id ron m final invs out h
  unfold submessage_reply_phase at h
  dsimp only at h
  split at h
  next hdd =>
    simp only [hdd, iff_true]
    split at h
    next m₁ e h₁ => simp at h
    next m₁ s h₁ => simp at h
    next m₁ u h₁ =>
      split at h
      next m₂ e h₂ =>
        simp only [Prod.mk.injEq] at h
        obtain ⟨-, hinvs, -⟩ := h
        rw [← hinvs]
        simp
      next m₂ s h₂ => simp at h
      next m₂ mr h₂ =>
        cases mr with
        | err e₂ =>
          simp only [Prod.mk.injEq] at h
          obtain ⟨-, hinvs, -⟩ := h
          rw [← hinvs]
          simp
        | ok r₂ =>
          dsimp only at h
          simp only [Prod.mk.injEq] at h
          obtain ⟨-, hinvs, -⟩ := h
          rw [← hinvs]
          simp
  next hdd =>
    simp only [Bool.not_eq_true] at hdd
    simp only [hdd, iff_false]
    cases response with
    | err e₂ =>
      simp only [Prod.mk.injEq] at h
      obtain ⟨-, hinvs, -⟩ := h
      rw [← hinvs]
      simp
    | ok r =>
      dsimp only at h
      simp only [Prod.mk.injEq] at h
      obtain ⟨-, hinvs, -⟩ := h
      rw [← hinvs]
      simp

/-- C4: for both Wasm submessage kinds, whenever the handler completes
without a host error, the `reply` entry point on the origin contract was
invoked exactly when the submessage's reply policy matches the
sub-response outcome (`Always` unconditionally, `OnSuccess` iff the
sub-response is Ok, `OnError` iff it is Err, `Never` never). -/
theorem c4_reply_policy :
    (∀ (ctx : SubmsgCtx) (origin target_addr : Addr) (msg : List Nat)
        (funds : List Coin) (sub_msg_id : Nat) (reply_on : ReplyOn)
        (self m₁ final : Model) (resp out : ContractResult Response)
        (invs : List (Addr × Reply)),
        ctx.execute_inner target_addr origin msg funds self = (m₁, .ok resp) →
        handle_submessage_execute ctx origin target_addr msg funds sub_msg_id reply_on self
          = (final, invs, .ok out) →
        ((invs ≠ []) ↔ do_reply_decision reply_on resp = true)) ∧
    (∀ (ctx : SubmsgCtx) (origin : Addr) (admin : Option String) (code_id : Nat)
        (msg : List Nat) (funds : List Coin) (sub_msg_id : Nat) (reply_on : ReplyOn)
        (self m₁ final : Model) (resp out : ContractResult Response)
        (new_addr : Option Addr) (invs : List (Addr × Reply)),
        instantiate_gate ctx origin admin code_id msg funds self = (m₁, .ok (resp, new_addr)) →
        handle_submessage_instantiate ctx origin admin code_id msg funds sub_msg_id reply_on self
          = (final, invs, .ok out) →
        ((invs ≠ []) ↔ do_reply_decision reply_on resp = true)) := by
  constructor
  · intro ctx origin target_addr msg funds sub_msg_id reply_on self m₁ final resp out invs
      hinner h
    unfold handle_submessage_execute at h
    rw [hinner] at h
    dsimp only at h
    exact submessage_reply_phase_invocations ctx origin resp
      encodeMsgExecuteContractResponse sub_msg_id reply_on m₁ final invs out h
  · intro ctx origin admin code_id msg funds sub_msg_id reply_on self m₁ final resp out
      new_addr invs hgate h
    unfold handle_submessage_instantiate at h
    rw [hgate] at h
    dsimp only at h
    exact submessage_reply_phase_invocations ctx origin resp _
      sub_msg_id reply_on m₁ final invs out h

theorem c4_reply_policy_witness :
    ((handle_submessage_execute subCtx0 "orig" "tgt" [] [] 1 ReplyOn.always
        sampleModel).2.1 ≠ [])
      ↔ do_reply_decision ReplyOn.always (.ok Response.new) = true := by
  exact c4_reply_policy.1 subCtx0 "orig" "tgt" [] [] 1 ReplyOn.always sampleModel
    sampleModel ({ sampleModel with debug_log := DebugLog.new.append_log Response.new })
    (.ok Response.new) (.ok Response.new)
    [("orig", { id := 1, result := .ok [] (some []) })]
    rfl rfl

/-- A sub-response that is not an `Err` is an `Ok`. -/
theorem contractResult_isOk_of_not_isErr {α : Type} (r : ContractResult α)
    (h : r.isErr = false) : r.isOk = true := by
  cases r <;> simp [ContractResult.isErr, ContractResult.isOk] at *

/-- Trace invariant of the submessage loop: a run that completes without a
host error appends some block of sub-responses to the accumulator; with no
submessages it appends nothing and returns the seeded `last_response`;
with submessages it appends at least one, returns the last appended
sub-response, and every appended sub-response before the last one is
`Ok`. -/
theorem handle_response_go_trace :
    ∀ (ctx : RespCtx) (origin : Addr) (msgs : List SubMsg) (m final : Model)
      (last : ContractResult Response) (seen seen₂ : List (ContractResult Response))
      (out : ContractResult Response),
      handle_response_go ctx origin m msgs last seen = (final, seen₂, .ok out) →
      ∃ pre, seen₂ = seen ++ pre ∧
        (msgs = [] → pre = [] ∧ out = last) ∧
        (msgs ≠ [] → pre ≠ [] ∧ pre.getLast? = some out ∧
          ∀ r ∈ pre.dropLast, r.isOk = true) := by
  intro ctx origin msgs
  induction msgs with
  | nil =>
    intro m final last seen seen₂ out h
    unfold handle_response_go at h
    simp only [Prod.mk.injEq, HostOutcome.ok.injEq] at h
    obtain ⟨-, hseen, hout⟩ := h
    exact ⟨[], by simp [← hseen], fun _ => ⟨rfl, hout.symm⟩, fun hne => absurd rfl hne⟩
  | cons sub rest ih =>
    intro m final last seen seen₂ out h
    unfold handle_response_go at h
    split at h
    next m₁ e h₁ => simp at h
    next m₁ p h₁ => simp at h
    next m₁ resp h₁ =>
      split at h
      next hisErr =>
        simp only [Prod.mk.injEq, HostOutcome.ok.injEq] at h
        obtain ⟨-, hseen, hout⟩ := h
        refine ⟨[resp], by simp [← hseen], fun hc => absurd hc (List.cons_ne_nil _ _),
          fun _ => ⟨by simp, ?_, by simp⟩⟩
        simp [hout]
      next hisErr =>
        obtain ⟨pre₁, hseen₁, hnil₁, hcons₁⟩ := ih m₁ final resp (seen ++ [resp]) seen₂ out h
        by_cases hrest : rest = []
        · obtain ⟨hpre₁, hout₁⟩ := hnil₁ hrest
          subst hpre₁
          refine ⟨[resp], by simp [hseen₁], fun hc => absurd hc (List.cons_ne_nil _ _),
            fun _ => ⟨by simp, ?_, by simp⟩⟩
          simp [hout₁]
        · obtain ⟨hpne, hlast₁, hdrop₁⟩ := hcons₁ hrest
          obtain ⟨a, pre₂, rfl⟩ := List.exists_cons_of_ne_nil hpne
          refine ⟨resp :: a :: pre₂, by simp [hseen₁], fun hc => absurd hc (List.cons_ne_nil _ _),
            fun _ => ⟨by simp, ?_, ?_⟩⟩
          · rw [List.getLast?_cons_cons]
            exact hlast₁
          · intro r hr
            rw [List.dropLast_cons₂] at hr
            rcases List.mem_cons.mp hr with hre | hrm
            · subst hre
              simp only [Bool.not_eq_true] at hisErr
              exact contractResult_isOk_of_not_isErr r hisErr
            · exact hdrop₁ r hrm

/-- C6 (amended): a response with no submessages is returned *unchanged*
(the full original response wrapped in `Ok`, not an empty response);
when submessages exist and the call completes without a host error, the
returned result is the last sub-response observed in declaration order,
and every sub-response observed before it was `Ok` (an `Err` sub-response
is returned at once). -/
theorem c6_last_response_amended :
    (∀ (ctx : RespCtx) (self : Model) (origin : Addr) (response : Response),
        response.messages = [] →
        Model.handle_response self ctx origin response = (self, [], .ok (.ok response))) ∧
    (∀ (ctx : RespCtx) (self final : Model) (origin : Addr) (response : Response)
        (seen : List (ContractResult Response)) (out : ContractResult Response),
        response.messages ≠ [] →
        Model.handle_response self ctx origin response = (final, seen, .ok out) →
        seen ≠ [] ∧ seen.getLast? = some out ∧ ∀ r ∈ seen.dropLast, r.isOk = true) := by
  constructor
  · intro ctx self origin response hempty
    unfold Model.handle_response
    rw [if_pos hempty]
  · intro ctx self final origin response seen out hne h
    unfold Model.handle_response at h
    rw [if_neg hne] at h
    obtain ⟨pre, hseen, -, hcons⟩ := handle_response_go_trace ctx origin
      response.messages self final (.ok Response.new) [] seen out h
    obtain ⟨hpne, hlast, hdrop⟩ := hcons hne
    simp only [List.nil_append] at hseen
    subst hseen
    exact ⟨hpne, hlast, hdrop⟩

theorem c6_last_response_amended_witness :
    Model.handle_response sampleModel respCtx0 "orig" Response.new
      = (sampleModel, [], .ok (.ok Response.new)) := by
  exact c6_last_response_amended.1 respCtx0 sampleModel "orig" Response.new rfl

/-- C7 (amended): every error arising inside `query_raw` — bank-query
failures, demand-fetch failures, sandbox construction failures, and
contract query errors — surfaces as a *backend* error
(`BackendError::Unknown`), exactly like decoding failures; the
`SystemResult`/`ContractResult` envelope is used only for successful
responses: whenever `query_raw` returns a result (rather than a backend
error), the envelope is `Ok(Ok(bytes))`. -/
theorem c7_envelope_amended :
    ∀ (ctx : QuerierCtx) (s : AllStates) (dlog : DebugLog) (request : List Nat)
      (envl : SystemResult (ContractResult (List Nat))),
      (query_raw ctx s dlog request).2.2 = .ok envl →
      ∃ b, envl = .ok (.ok b) := by
  intro ctx s dlog request envl h
  unfold query_raw at h
  split at h
  · simp at h
  · split at h
    next s₁ resp hbq =>
      dsimp only at h
      simp only [BackendCallResult.ok.injEq] at h
      exact ⟨resp, h.symm⟩
    next s₁ e hbq => simp at h
    next s₁ p hbq => simp at h
  · simp at h
  · next wq hno heq =>
    cases wq with
    | otherVariant =>
      dsimp only at h
      split at h
      next hpr => simp at h
      next hpr =>
        split at h
        next e hf => simp at h
        next p hf => simp at h
        next s₁ hf =>
          split at h
          next hcs => simp at h
          next cst hcs =>
            split at h
            next hlen => simp at h
            next hlen =>
              split at h
              next e₂ hic => simp at h
              next u hic =>
                split at h
                next b hq =>
                  dsimp only at h
                  simp only [BackendCallResult.ok.injEq] at h
                  exact ⟨b, h.symm⟩
                next e₃ hq => simp at h
                next p hq => simp at h
    | contract_info a =>
      dsimp only at h
      split at h
      next hpr => simp at h
      next hpr =>
        split at h
        next e hf => simp at h
        next p hf => simp at h
        next s₁ hf =>
          split at h
          next hcs => simp at h
          next cst hcs =>
            split at h
            next hlen => simp at h
            next hlen =>
              split at h
              next e₂ hic => simp at h
              next u hic =>
                split at h
                next b hq =>
                  dsimp only at h
                  simp only [BackendCallResult.ok.injEq] at h
                  exact ⟨b, h.symm⟩
                next e₃ hq => simp at h
                next p hq => simp at h
    | raw a k =>
      dsimp only at h
      split at h
      next hpr => simp at h
      next hpr =>
        split at h
        next e hf => simp at h
        next p hf => simp at h
        next s₁ hf =>
          split at h
          next hcs => simp at h
          next cst hcs =>
            split at h
            next hlen => simp at h
            next hlen =>
              split at h
              next e₂ hic => simp at h
              next u hic =>
                split at h
                next b hq =>
                  dsimp only at h
                  simp only [BackendCallResult.ok.injEq] at h
                  exact ⟨b, h.symm⟩
                next e₃ hq => simp at h
                next p hq => simp at h
    | smart a mq =>
      dsimp only at h
      split at h
      next hpr =>
        split at h
        next hpq => simp at h
        next txt hpq =>
          dsimp only at h
          simp only [BackendCallResult.ok.injEq] at h
          exact ⟨ctx.encodePrintResponse, h.symm⟩
      next hpr =>
        split at h
        next e hf => simp at h
        next p hf => simp at h
        next s₁ hf =>
          split at h
          next hcs => simp at h
          next cst hcs =>
            split at h
            next hlen => simp at h
            next hlen =>
              split at h
              next e₂ hic => simp at h
              next u hic =>
                split at h
                next b hq =>
                  dsimp only at h
                  simp only [BackendCallResult.ok.injEq] at h
                  exact ⟨b, h.symm⟩
                next e₃ hq => simp at h
                next p hq => simp at h
  · simp at h

theorem c7_envelope_amended_witness :
    ∃ b, (SystemResult.ok (ContractResult.ok ([8] : List Nat)))
          = SystemResult.ok (ContractResult.ok b) := by
  exact c7_envelope_amended qctxPrint sampleStates DebugLog.new [0]
    (.ok (.ok [8])) rfl

end CwSim
